import Mathlib

/-!
# Nexus Flow orchestration engine — verification development

Shallow embedding of the trigger-to-execution orchestration routes of
`src/server/src/api/server.ts` (Express + Redis + BullMQ), together with
proofs about the externally observable contract of each route:

- `POST /trigger-workflow` (deploy / test-run / webhook rename & tombstone /
  timer schedule reconciliation) — `handleTriggerWorkflow`
- `POST /webhook/:workflowId` — `handleWebhook`
- `POST /workflow-state` and `GET /workflow-state/:name` — `handleSaveState`,
  `handleLoadState`
- `PUT /hot-reload` — `handleHotReload`
- `POST /resume-workflow` — `handleResume`

Redis is modelled as an association-list key/value store (`kvGet`/`kvSet`/
`kvDel`, latest write wins), split per key prefix (`workflow_config:`,
`workflow_tombstone:`, `workflow_state:`, `workflow_pause:`).  The BullMQ
queue is modelled as a list of enqueued jobs plus a list of repeatable
(recurring) entries whose removal key is identified with the
`(id, repeat opts)` pair that determines it.  `Date.now()` is an explicit
`now : Nat` parameter and ISO timestamps are modelled as `Nat`.
-/

namespace NexusFlow

/-- Embedding of JavaScript `s.startsWith(p)`. -/
def jsStartsWith (s p : String) : Bool := p.data.isPrefixOf s.data

/-- One character of `name.replace(/[^a-zA-Z0-9]/g, '_').toLowerCase()`:
ASCII alphanumerics are lower-cased, every other character becomes `'_'`. -/
def sanitizeChars : List Char → List Char
  | [] => []
  | c :: cs => (if c.isAlphanum then c.toLower else '_') :: sanitizeChars cs

/-- Embedding of `name.replace(/[^a-zA-Z0-9]/g, '_').toLowerCase()` from the
`safeName` computation in `POST /trigger-workflow` and the workflow-state
routes. -/
def safeName (s : String) : String := String.mk (sanitizeChars s.data)

/-- Embedding of `workflowConfig.workflowName || "default"` (JS falsiness:
a missing name or the empty string falls back to `"default"`). -/
def nameOrDefault : Option String → String
  | some s => if s == "" then "default" else s
  | none => "default"

/-- One character of the sanitization the spec's words describe (§3
WorkflowIdentity): non-alphanumerics are STRIPPED, the rest lower-cased. -/
def specStripChars : List Char → List Char
  | [] => []
  | c :: cs => if c.isAlphanum then c.toLower :: specStripChars cs else specStripChars cs

/-- Modelled from the spec's words, for refinement comparison only:
`sanitizedName` "strips all non-alphanumeric characters and lower-cases". -/
def specSanitize (s : String) : String := String.mk (specStripChars s.data)

/-- Execution context carried by a job; content is opaque to the
orchestration layer, modelled as a string-keyed record. -/
abbrev Ctx := List (String × String)

/-- The trigger sub-document of a workflow configuration.  Optional fields
model JS `undefined`; `intervalMinutes` is kept as the number `parseInt`
yields. -/
structure Trigger where
  type : String
  scheduleType : Option String
  cronExpression : Option String
  intervalMinutes : Option Nat
deriving DecidableEq

/-- A workflow configuration document as the routes consume it (only the
fields the orchestration layer reads). -/
structure WorkflowConfig where
  workflowName : Option String
  trigger : Option Trigger
deriving DecidableEq

/-- A rename tombstone `{status, newWorkflowId, renamedAt}` stored under
`workflow_tombstone:{oldId}`. -/
structure Tombstone where
  status : String
  newWorkflowId : String
  renamedAt : Nat
deriving DecidableEq

/-- An editor-saved workflow state record stored under
`workflow_state:{safeName}`. -/
structure StateRecord where
  id : String
  name : String
  nodes : List String
  edges : List String
  globalSettings : List (String × String)
  version : Nat
  createdAt : Nat
  updatedAt : Nat
deriving DecidableEq

/-- A persisted pause state stored under `workflow_pause:{workflowId}:{jobId}`.
Optional fields model JS `undefined`/missing fields of the parsed JSON. -/
structure PauseState where
  context : Option Ctx
  remainingActions : Option (List String)
  spreadsheetId : Option String
deriving DecidableEq

/-- BullMQ repeat options: a cron pattern or a fixed period in milliseconds. -/
inductive RepeatOpts where
  | pattern (cronExpression : String)
  | every (ms : Nat)
deriving DecidableEq

/-- One recurring (repeatable) queue entry.  Its BullMQ removal key is
determined by the logical id and the repeat options, so the entry itself
stands for its key. -/
structure RepeatableEntry where
  id : String
  opts : RepeatOpts
deriving DecidableEq

/-- The data payload of an enqueued `execute-workflow` job. -/
structure JobData where
  workflowId : String
  executionId : Option String
  context : Ctx
  resume : Bool
  remainingActions : Option (List String)
  spreadsheetIdOverride : Option String
deriving DecidableEq

/-- One enqueued job: name, data payload and the dedupe job id. -/
structure QueuedJob where
  jobName : String
  data : JobData
  jobId : String
deriving DecidableEq

/-- The BullMQ `workflow-queue`: one-shot jobs plus repeatable entries. -/
structure Queue where
  jobs : List QueuedJob
  repeatables : List RepeatableEntry
deriving DecidableEq

/-- `workflowQueue.add(name, data, { jobId })` (dedupe behaviour of the
external queue is outside this layer; the claims are about what is
submitted). -/
def Queue.addJob (q : Queue) (jobName : String) (data : JobData) (jobId : String) : Queue :=
  { q with jobs := q.jobs ++ [{ jobName := jobName, data := data, jobId := jobId }] }

/-- `workflowQueue.removeRepeatableByKey(key)` with the key identified with
the `(id, opts)` pair that determines it. -/
def Queue.removeRepeatableByKey (q : Queue) (e : RepeatableEntry) : Queue :=
  { q with repeatables := q.repeatables.filter (fun x => x != e) }

/-- `workflowQueue.add(name, data, { repeat, jobId })`: registers a
repeatable entry with logical id `jobId`; re-registering the same key
replaces it. -/
def Queue.addRepeatable (q : Queue) (id : String) (opts : RepeatOpts) : Queue :=
  { q with repeatables :=
      q.repeatables.filter (fun x => x != RepeatableEntry.mk id opts)
        ++ [RepeatableEntry.mk id opts] }

/-- Association-list read, leftmost (latest) binding wins — `redis.get`. -/
def kvGet {α : Type} (kv : List (String × α)) (k : String) : Option α :=
  match kv.find? (fun p => p.1 == k) with
  | some p => some p.2
  | none => none

/-- Association-list overwrite — `redis.set`. -/
def kvSet {α : Type} (kv : List (String × α)) (k : String) (v : α) : List (String × α) :=
  (k, v) :: kv.filter (fun p => p.1 != k)

/-- Association-list delete — `redis.del`. -/
def kvDel {α : Type} (kv : List (String × α)) (k : String) : List (String × α) :=
  kv.filter (fun p => p.1 != k)

/-- The Redis keyspace split by key prefix: `workflow_config:{id}`,
`workflow_tombstone:{id}`, `workflow_state:{safeName}` and
`workflow_pause:{workflowId}:{jobId}` (pause entries are keyed by the
composite suffix string, as in Redis). -/
structure Store where
  configs : List (String × WorkflowConfig)
  tombstones : List (String × Tombstone)
  states : List (String × StateRecord)
  pauses : List (String × PauseState)
deriving DecidableEq

def Store.getConfig (st : Store) (id : String) : Option WorkflowConfig := kvGet st.configs id

def Store.setConfig (st : Store) (id : String) (c : WorkflowConfig) : Store :=
  { st with configs := kvSet st.configs id c }

def Store.delConfig (st : Store) (id : String) : Store :=
  { st with configs := kvDel st.configs id }

def Store.getTombstone (st : Store) (id : String) : Option Tombstone := kvGet st.tombstones id

def Store.setTombstone (st : Store) (id : String) (t : Tombstone) : Store :=
  { st with tombstones := kvSet st.tombstones id t }

def Store.delTombstone (st : Store) (id : String) : Store :=
  { st with tombstones := kvDel st.tombstones id }

def Store.getState (st : Store) (k : String) : Option StateRecord := kvGet st.states k

def Store.setState (st : Store) (k : String) (r : StateRecord) : Store :=
  { st with states := kvSet st.states k r }

def Store.getPause (st : Store) (k : String) : Option PauseState := kvGet st.pauses k

def Store.delPause (st : Store) (k : String) : Store :=
  { st with pauses := kvDel st.pauses k }

/-- A primitive Redis write the webhook-rename block performs. -/
inductive StoreOp where
  | setTombstone (id : String) (t : Tombstone)
  | delConfig (id : String)
deriving DecidableEq

def Store.applyOp (st : Store) : StoreOp → Store
  | StoreOp.setTombstone id t => st.setTombstone id t
  | StoreOp.delConfig id => st.delConfig id

/-- The Redis writes of the webhook rename block of `POST /trigger-workflow`,
in source order: first `SET workflow_tombstone:{previousId}`, then
`DEL workflow_config:{previousId}`. -/
def renameOps (now : Nat) (previousId newWorkflowId : String) : List StoreOp :=
  [StoreOp.setTombstone previousId
     { status := "renamed", newWorkflowId := newWorkflowId, renamedAt := now },
   StoreOp.delConfig previousId]

/-- The full server state one request observes and transforms. -/
structure ServerState where
  store : Store
  queue : Queue
deriving DecidableEq

/-- JS truthiness of an optional string field (`undefined` and `""` falsy). -/
def truthyStr : Option String → Bool
  | some s => s != ""
  | none => false

/-- JS truthiness of an optional numeric field (`undefined` and `0` falsy). -/
def truthyNat : Option Nat → Bool
  | some n => n != 0
  | none => false

/-- The timer-branch validation of `POST /trigger-workflow`:
`scheduleType === 'cron' && cronExpression` gives a pattern,
`scheduleType === 'interval' && intervalMinutes` gives a period of
`parseInt(intervalMinutes) * 60 * 1000` milliseconds, anything else is an
invalid timer configuration. -/
def compileRepeat (t : Trigger) : Option RepeatOpts :=
  if t.scheduleType == some "cron" && truthyStr t.cronExpression then
    some (RepeatOpts.pattern (t.cronExpression.getD ""))
  else if t.scheduleType == some "interval" && truthyNat t.intervalMinutes then
    some (RepeatOpts.every (t.intervalMinutes.getD 0 * 60 * 1000))
  else none

/-- The workflow-id derivation of `POST /trigger-workflow`: a `safeName`
from the (defaulted) workflow name, prefixed per trigger type; non-webhook,
non-timer deploys get a time-based `job_` id. -/
def deriveId (now : Nat) (triggerType : Option String) (workflowName : Option String) : String :=
  let sn := safeName (nameOrDefault workflowName)
  if triggerType == some "timer" then "cron_workflow_" ++ sn
  else if triggerType == some "webhook" then "workflow_" ++ sn
  else "job_" ++ toString now

/-- The request body of `POST /trigger-workflow`. -/
structure TriggerBody where
  config : Option WorkflowConfig
  context : Ctx
  isTestRun : Bool
  previousWorkflowId : Option String
deriving DecidableEq

/-- The mock `WebhookBody` payload injected for test runs, abstracted to a
single opaque entry merged over the manual context. -/
def testRunContext (manualContext : Ctx) : Ctx :=
  manualContext ++ [("WebhookBody", "mock_test_payload")]

/-- Caller-visible outcome of `POST /trigger-workflow`. -/
inductive TriggerResult where
  | missingConfig
  | testRun (jobId : String)
  | webhookDeployed (jobId : String)
  | scheduled (jobId : String)
  | queuedImmediate (jobId : String)
  | invalidTimer
deriving DecidableEq

/-- Embedding of `POST /trigger-workflow` (`server.ts`, producer route):
derives the workflow id, performs the webhook rename/tombstone block,
saves the config, clears the tombstone of a (re)activated webhook id, and
dispatches to the test-run / webhook / timer / immediate branch. -/
def handleTriggerWorkflow (now : Nat) (body : TriggerBody) (s : ServerState) :
    TriggerResult × ServerState :=
  match body.config with
  | none => (TriggerResult.missingConfig, s)
  | some cfg =>
    let triggerType : Option String := cfg.trigger.map (fun t => t.type)
    let isTimer := triggerType == some "timer"
    let isWebhook := triggerType == some "webhook"
    let workflowId := deriveId now triggerType cfg.workflowName
    let store1 :=
      if isWebhook then
        match body.previousWorkflowId with
        | some previousId =>
          if previousId != "" && previousId != workflowId then
            (renameOps now previousId workflowId).foldl Store.applyOp s.store
          else s.store
        | none => s.store
      else s.store
    let store2 := store1.setConfig workflowId cfg
    let store3 := if isWebhook then store2.delTombstone workflowId else store2
    if body.isTestRun then
      let immediateId := "test_run_" ++ toString now
      let q := s.queue.addJob "execute-workflow"
        { workflowId := workflowId, executionId := some immediateId,
          context := testRunContext body.context, resume := false,
          remainingActions := none, spreadsheetIdOverride := none } immediateId
      (TriggerResult.testRun immediateId, { store := store3, queue := q })
    else if isWebhook then
      (TriggerResult.webhookDeployed workflowId, { store := store3, queue := s.queue })
    else if isTimer then
      match cfg.trigger with
      | some trig =>
        match compileRepeat trig with
        | some opts =>
          let q1 :=
            match s.queue.repeatables.find? (fun e => e.id == workflowId) with
            | some e => s.queue.removeRepeatableByKey e
            | none => s.queue
          let q2 := q1.addRepeatable workflowId opts
          (TriggerResult.scheduled workflowId, { store := store3, queue := q2 })
        | none => (TriggerResult.invalidTimer, { store := store3, queue := s.queue })
      | none =>
        -- dead branch: `isTimer` forces `cfg.trigger` to be present
        (TriggerResult.invalidTimer, { store := store3, queue := s.queue })
    else
      let q := s.queue.addJob "execute-workflow"
        { workflowId := workflowId, executionId := none,
          context := body.context, resume := false,
          remainingActions := none, spreadsheetIdOverride := none } workflowId
      (TriggerResult.queuedImmediate workflowId, { store := store3, queue := q })

/-- Caller-visible outcome of `POST /webhook/:workflowId`. -/
inductive WebhookResult where
  | malformed
  | accepted (jobId : String)
  | gone
  | notFound
deriving DecidableEq

/-- Embedding of `POST /webhook/:workflowId`: namespace check, then active
config, then tombstone, then not-found; an accepted call enqueues with a
fresh time-based dedupe job id while the job's `executionId` field stays
the stable `workflowId`. -/
def handleWebhook (now : Nat) (workflowId : String) (ctx : Ctx) (s : ServerState) :
    WebhookResult × ServerState :=
  if !(jsStartsWith workflowId "workflow_") then (WebhookResult.malformed, s)
  else
    match s.store.getConfig workflowId with
    | some _ =>
      let executionId := "webhook_exec_" ++ toString now
      let q := s.queue.addJob "execute-workflow"
        { workflowId := workflowId, executionId := some workflowId,
          context := ctx, resume := false,
          remainingActions := none, spreadsheetIdOverride := none } executionId
      (WebhookResult.accepted executionId, { s with queue := q })
    | none =>
      match s.store.getTombstone workflowId with
      | some _ => (WebhookResult.gone, s)
      | none => (WebhookResult.notFound, s)

/-- Caller-visible outcome of `POST /workflow-state`. -/
inductive SaveResult where
  | badRequest
  | saved (record : StateRecord)
deriving DecidableEq

/-- The stored id of a saved state: `workflowId || "workflow_" + safeName`
(JS falsiness). -/
def statePayloadId (workflowId : Option String) (sn : String) : String :=
  match workflowId with
  | some w => if w == "" then "workflow_" ++ sn else w
  | none => "workflow_" ++ sn

/-- `version = (existing.version || 1) + 1`, or `1` for a fresh name. -/
def nextVersion : Option StateRecord → Nat
  | some ex => (if ex.version == 0 then 1 else ex.version) + 1
  | none => 1

/-- `createdAt = existing.createdAt || now`, or `now` for a fresh name. -/
def nextCreatedAt (now : Nat) : Option StateRecord → Nat
  | some ex => if ex.createdAt == 0 then now else ex.createdAt
  | none => now

/-- The record `POST /workflow-state` persists and returns. -/
def savePayload (now : Nat) (nm : String) (ns es : List String)
    (gs : List (String × String)) (wfid : Option String)
    (prev : Option StateRecord) : StateRecord :=
  { id := statePayloadId wfid (safeName nm), name := nm, nodes := ns, edges := es,
    globalSettings := gs, version := nextVersion prev,
    createdAt := nextCreatedAt now prev, updatedAt := now }

/-- Embedding of `POST /workflow-state`: validates `name`/`nodes`/`edges`,
computes `version = (existing.version || 1) + 1` and preserves
`createdAt = existing.createdAt || now`, then overwrites
`workflow_state:{safeName}`. -/
def handleSaveState (now : Nat) (name : Option String)
    (nodes edges : Option (List String)) (globalSettings : List (String × String))
    (workflowId : Option String) (st : Store) : SaveResult × Store :=
  match name, nodes, edges with
  | some nm, some ns, some es =>
    if nm == "" then (SaveResult.badRequest, st)
    else
      let payload := savePayload now nm ns es globalSettings workflowId
        (st.getState (safeName nm))
      (SaveResult.saved payload, st.setState (safeName nm) payload)
  | _, _, _ => (SaveResult.badRequest, st)

/-- Caller-visible outcome of `GET /workflow-state/:name`. -/
inductive LoadResult where
  | badRequest
  | notFound
  | found (record : StateRecord)
deriving DecidableEq

/-- Embedding of `GET /workflow-state/:name`: looks up
`workflow_state:{safeName}`. -/
def handleLoadState (name : String) (st : Store) : LoadResult :=
  if name == "" then LoadResult.badRequest
  else
    match st.getState (safeName name) with
    | some r => LoadResult.found r
    | none => LoadResult.notFound

/-- Caller-visible outcome of `PUT /hot-reload`. -/
inductive HotReloadResult where
  | missingParams
  | ok
deriving DecidableEq

/-- Embedding of `PUT /hot-reload`: silently overwrites
`workflow_config:{workflowId}` (and touches nothing else). -/
def handleHotReload (workflowId : String) (config : Option WorkflowConfig)
    (s : ServerState) : HotReloadResult × ServerState :=
  match config with
  | none => (HotReloadResult.missingParams, s)
  | some cfg =>
    if workflowId == "" then (HotReloadResult.missingParams, s)
    else (HotReloadResult.ok, { s with store := s.store.setConfig workflowId cfg })

/-- Caller-visible outcome of `POST /resume-workflow`. -/
inductive ResumeResult where
  | missingParams
  | noPausedState
  | corrupted
  | resumed (jobId : String)
deriving DecidableEq

/-- The Redis key suffix of `workflow_pause:{workflowId}:{jobId}`. -/
def pauseKey (workflowId jobId : String) : String := workflowId ++ ":" ++ jobId

/-- Embedding of `POST /resume-workflow`: reads the pause state, rejects a
missing one (404) and a malformed one (corrupted, without deleting it),
then deletes the pause state and re-enqueues with `resume: true`, the
saved context and remaining actions, under a fresh `resume_` execution id
used as the dedupe job id. -/
def handleResume (now : Nat) (workflowId jobId : String) (s : ServerState) :
    ResumeResult × ServerState :=
  if workflowId == "" || jobId == "" then (ResumeResult.missingParams, s)
  else
    let key := pauseKey workflowId jobId
    match s.store.getPause key with
    | none => (ResumeResult.noPausedState, s)
    | some ps =>
      match ps.remainingActions, ps.context with
      | some ra, some ctx =>
        let store := s.store.delPause key
        let executionId := "resume_" ++ toString now
        let q := s.queue.addJob "execute-workflow"
          { workflowId := workflowId, executionId := some executionId,
            context := ctx, resume := true,
            remainingActions := some ra,
            spreadsheetIdOverride := ps.spreadsheetId } executionId
        (ResumeResult.resumed executionId, { store := store, queue := q })
      | _, _ => (ResumeResult.corrupted, s)

/-! ## Sample values used by witnesses and counterexamples -/

def emptyStore : Store := { configs := [], tombstones := [], states := [], pauses := [] }

def emptyQueue : Queue := { jobs := [], repeatables := [] }

def emptyState : ServerState := { store := emptyStore, queue := emptyQueue }

/-- A minimal webhook-triggered configuration named `nm`. -/
def webhookCfg (nm : String) : WorkflowConfig :=
  { workflowName := some nm,
    trigger := some { type := "webhook", scheduleType := none, cronExpression := none,
                      intervalMinutes := none } }

/-- A minimal timer-triggered configuration. -/
def timerCfg (nm : String) (sch : Option String) (cron : Option String)
    (mins : Option Nat) : WorkflowConfig :=
  { workflowName := some nm,
    trigger := some { type := "timer", scheduleType := sch, cronExpression := cron,
                      intervalMinutes := mins } }

/-! ## Key/value store lemmas -/

theorem kvGet_set_self {α : Type} (kv : List (String × α)) (k : String) (v : α) :
    kvGet (kvSet kv k v) k = some v := by
  simp [kvGet, kvSet, List.find?]

theorem kvGet_set_ne {α : Type} (kv : List (String × α)) (k k' : String) (v : α)
    (h : k' ≠ k) : kvGet (kvSet kv k v) k' = kvGet kv k' := by
  have hk : (k == k') = false := beq_eq_false_iff_ne.mpr (fun hh => h hh.symm)
  induction kv with
  | nil => simp [kvGet, kvSet, List.find?, hk]
  | cons p rest ih =>
    by_cases hp : p.1 = k
    · have hp' : (p.1 == k') = false := beq_eq_false_iff_ne.mpr (fun hh => h (hp ▸ hh).symm)
      have hpk : (p.1 != k) = false := by simp [hp]
      simp only [kvGet, kvSet, List.filter_cons, hpk, List.find?, hk] at *
      simpa [hp'] using ih
    · have hpk : (p.1 != k) = true := by simp [hp]
      simp only [kvGet, kvSet, List.filter_cons, hpk, List.find?, hk] at *
      by_cases hq : (p.1 == k') = true
      · simp [List.find?, hq]
      · have hq' : (p.1 == k') = false := by simpa using hq
        simp only [List.find?, hq'] at *
        simpa [hq'] using ih

theorem kvGet_del_self {α : Type} (kv : List (String × α)) (k : String) :
    kvGet (kvDel kv k) k = none := by
  induction kv with
  | nil => rfl
  | cons p rest ih =>
    by_cases hp : p.1 = k
    · have hpk : (p.1 != k) = false := by simp [hp]
      simpa [kvDel, List.filter_cons, hpk] using ih
    · have hpk : (p.1 != k) = true := by simp [hp]
      have hq : (p.1 == k) = false := beq_eq_false_iff_ne.mpr hp
      simp only [kvDel, List.filter_cons, hpk, kvGet, List.find?, hq] at *
      simpa [kvDel] using ih

theorem kvGet_del_ne {α : Type} (kv : List (String × α)) (k k' : String)
    (h : k' ≠ k) : kvGet (kvDel kv k) k' = kvGet kv k' := by
  induction kv with
  | nil => rfl
  | cons p rest ih =>
    by_cases hp : p.1 = k
    · have hp' : (p.1 == k') = false := beq_eq_false_iff_ne.mpr (fun hh => h (hp ▸ hh).symm)
      have hpk : (p.1 != k) = false := by simp [hp]
      simp only [kvDel, List.filter_cons, hpk, kvGet, List.find?, hp'] at *
      simpa [kvDel] using ih
    · have hpk : (p.1 != k) = true := by simp [hp]
      by_cases hq : (p.1 == k') = true
      · simp [kvDel, List.filter_cons, hpk, kvGet, List.find?, hq]
      · have hq' : (p.1 == k') = false := by simpa using hq
        simp only [kvDel, List.filter_cons, hpk, kvGet, List.find?, hq'] at *
        simpa [kvDel] using ih

/-! ## String-identity lemmas -/

/-- A fresh `webhook_exec_`-prefixed id can never equal an id in the
`workflow_` namespace (the two prefixes differ at their second character). -/
theorem webhookExec_ne_workflowId (t wid : String)
    (h : jsStartsWith wid "workflow_" = true) : ("webhook_exec_" ++ t) ≠ wid := by
  intro heq
  have hpre : "workflow_".data <+: wid.data := by
    simpa [jsStartsWith, List.isPrefixOf_iff_prefix] using h
  obtain ⟨t2, ht⟩ := hpre
  have h1 : wid.data = 'w' :: 'o' :: ('r' :: 'k' :: 'f' :: 'l' :: 'o' :: 'w' :: '_' :: t2) := by
    rw [← ht]; rfl
  have h2 : wid.data
      = 'w' :: 'e' :: ('b' :: 'h' :: 'o' :: 'o' :: 'k' :: '_' :: 'e' :: 'x' :: 'e' :: 'c' :: '_' :: t.data) := by
    rw [← heq]; rfl
  rw [h1] at h2
  injection h2 with h3 h4
  injection h4 with h5 h6
  exact absurd h5 (by decide)

/-! ## Claim C1 -/

/-- C1: On an inbound webhook call `POST /webhook/:workflowId`, (1) an id
outside the `workflow_` namespace is rejected as malformed irrespective of
the store contents; (2) if an active config exists the call is accepted —
regardless of any tombstone, since the tombstone is never consulted — and
is enqueued with the fresh time-based dedupe job id `webhook_exec_<now>`,
which is distinct from `workflowId`, while the job's `executionId`
(broadcast-room key) is the stable `workflowId`; (3) else a tombstone
yields the permanently-gone outcome; (4) else not-found. -/
theorem webhook_resolution_order (now : Nat) (s : ServerState) (wid : String) (ctx : Ctx) :
    (jsStartsWith wid "workflow_" = false →
      handleWebhook now wid ctx s = (WebhookResult.malformed, s)) ∧
    (jsStartsWith wid "workflow_" = true →
      (∀ cfg, s.store.getConfig wid = some cfg →
        handleWebhook now wid ctx s =
          (WebhookResult.accepted ("webhook_exec_" ++ toString now),
           { s with queue := (s.queue.addJob "execute-workflow"
              ({ workflowId := wid, executionId := some wid, context := ctx,
                 resume := false, remainingActions := none, spreadsheetIdOverride := none })
              ("webhook_exec_" ++ toString now)) }) ∧
        ("webhook_exec_" ++ toString now) ≠ wid) ∧
      (s.store.getConfig wid = none →
        ((s.store.getTombstone wid).isSome = true →
          handleWebhook now wid ctx s = (WebhookResult.gone, s)) ∧
        (s.store.getTombstone wid = none →
          handleWebhook now wid ctx s = (WebhookResult.notFound, s)))) := by
  refine ⟨fun h => ?_,
          fun h => ⟨fun cfg hcfg => ⟨?_, webhookExec_ne_workflowId (toString now) wid h⟩,
                    fun hn => ⟨fun ht => ?_, fun ht => ?_⟩⟩⟩
  · simp [handleWebhook, h]
  · simp [handleWebhook, h, hcfg]
  · obtain ⟨t, ht'⟩ := Option.isSome_iff_exists.mp ht
    simp [handleWebhook, h, hn, ht']
  · simp [handleWebhook, h, hn, ht]

def sampleCfgState : ServerState :=
  { store := { emptyStore with configs := [("workflow_x", webhookCfg "x")] },
    queue := emptyQueue }

def sampleTombState : ServerState :=
  { store := { emptyStore with
      tombstones := [("workflow_gone",
        { status := "renamed", newWorkflowId := "workflow_y", renamedAt := 0 })] },
    queue := emptyQueue }

/-- Witness for C1: each branch of the resolution order exercised on a
concrete store. -/
theorem webhook_resolution_order_witness :
    handleWebhook 5 "bad_id" [] emptyState = (WebhookResult.malformed, emptyState) ∧
    (handleWebhook 5 "workflow_x" [] sampleCfgState =
      (WebhookResult.accepted ("webhook_exec_" ++ toString 5),
       { sampleCfgState with queue := (sampleCfgState.queue.addJob "execute-workflow"
          ({ workflowId := "workflow_x", executionId := some "workflow_x", context := [],
             resume := false, remainingActions := none, spreadsheetIdOverride := none })
          ("webhook_exec_" ++ toString 5)) }) ∧
     ("webhook_exec_" ++ toString 5) ≠ "workflow_x") ∧
    handleWebhook 5 "workflow_gone" [] sampleTombState = (WebhookResult.gone, sampleTombState) ∧
    handleWebhook 5 "workflow_nf" [] emptyState = (WebhookResult.notFound, emptyState) := by
  refine ⟨?_, ?_, ?_, ?_⟩
  · exact (webhook_resolution_order 5 emptyState "bad_id" []).1 (by decide)
  · exact ((webhook_resolution_order 5 sampleCfgState "workflow_x" []).2 (by decide)).1
      (webhookCfg "x") (by decide)
  · exact ((((webhook_resolution_order 5 sampleTombState "workflow_gone" []).2
      (by decide)).2) (by decide)).1 (by decide)
  · exact ((((webhook_resolution_order 5 emptyState "workflow_nf" []).2
      (by decide)).2) (by decide)).2 (by decide)

/-! ## Claim C2 -/

/-- C2: For a resume request with a well-formed PauseState (both
`remainingActions` and `context` present), the PauseState is deleted and a
new execution request is enqueued carrying `resume: true`, the saved
context and the saved remaining actions, under the freshly generated
execution id `resume_<now>` also used as the dedupe job id; and a second
resume with the same `(workflowId, jobId)` then fails with the
no-paused-state outcome — the PauseState is consumed exactly once. -/
theorem resume_consumes_pause_once (now now2 : Nat) (s : ServerState)
    (workflowId jobId : String) (ps : PauseState) (ra : List String) (ctx : Ctx)
    (hw : workflowId ≠ "") (hj : jobId ≠ "")
    (hp : s.store.getPause (pauseKey workflowId jobId) = some ps)
    (hra : ps.remainingActions = some ra) (hctx : ps.context = some ctx) :
    handleResume now workflowId jobId s =
      (ResumeResult.resumed ("resume_" ++ toString now),
       { store := s.store.delPause (pauseKey workflowId jobId),
         queue := (s.queue.addJob "execute-workflow"
           ({ workflowId := workflowId, executionId := some ("resume_" ++ toString now),
              context := ctx, resume := true, remainingActions := some ra,
              spreadsheetIdOverride := ps.spreadsheetId })
           ("resume_" ++ toString now)) }) ∧
    (handleResume now2 workflowId jobId (handleResume now workflowId jobId s).2).1
      = ResumeResult.noPausedState := by
  have hw' : (workflowId == "") = false := beq_eq_false_iff_ne.mpr hw
  have hj' : (jobId == "") = false := beq_eq_false_iff_ne.mpr hj
  have h1 : handleResume now workflowId jobId s =
      (ResumeResult.resumed ("resume_" ++ toString now),
       { store := s.store.delPause (pauseKey workflowId jobId),
         queue := (s.queue.addJob "execute-workflow"
           ({ workflowId := workflowId, executionId := some ("resume_" ++ toString now),
              context := ctx, resume := true, remainingActions := some ra,
              spreadsheetIdOverride := ps.spreadsheetId })
           ("resume_" ++ toString now)) }) := by
    simp [handleResume, hw', hj', hp, hra, hctx]
  refine ⟨h1, ?_⟩
  rw [h1]
  simp [handleResume, hw', hj', Store.getPause, Store.delPause, kvGet_del_self]

def samplePause : PauseState :=
  { context := some [("a", "1")], remainingActions := some ["act2"], spreadsheetId := none }

def samplePausedState : ServerState :=
  { store := { emptyStore with pauses := [("workflow_x:job1", samplePause)] },
    queue := emptyQueue }

/-- Witness for C2: a concrete pause state is resumed once, and a second
resume finds nothing. -/
theorem resume_consumes_pause_once_witness :
    handleResume 11 "workflow_x" "job1" samplePausedState =
      (ResumeResult.resumed ("resume_" ++ toString 11),
       { store := samplePausedState.store.delPause (pauseKey "workflow_x" "job1"),
         queue := (samplePausedState.queue.addJob "execute-workflow"
           ({ workflowId := "workflow_x", executionId := some ("resume_" ++ toString 11),
              context := [("a", "1")], resume := true, remainingActions := some ["act2"],
              spreadsheetIdOverride := samplePause.spreadsheetId })
           ("resume_" ++ toString 11)) }) ∧
    (handleResume 12 "workflow_x" "job1"
      (handleResume 11 "workflow_x" "job1" samplePausedState).2).1
      = ResumeResult.noPausedState := by
  exact resume_consumes_pause_once 11 12 samplePausedState "workflow_x" "job1"
    samplePause ["act2"] [("a", "1")] (by decide) (by decide) (by decide) (by decide) (by decide)

/-! ## Claim C7 -/

def sampleBadPause : PauseState :=
  { context := none, remainingActions := some ["act2"], spreadsheetId := none }

def sampleBadPausedState : ServerState :=
  { store := { emptyStore with pauses := [("workflow_x:job1", sampleBadPause)] },
    queue := emptyQueue }

/-- Counterexample to C7: a pause state missing `context` is rejected as
corrupted, but contrary to the claim it is NOT deleted before validation —
after the rejected resume the PauseState still exists in the store. -/
theorem corrupted_pause_counterexample :
    handleResume 11 "workflow_x" "job1" sampleBadPausedState
      = (ResumeResult.corrupted, sampleBadPausedState) ∧
    (handleResume 11 "workflow_x" "job1" sampleBadPausedState).2.store.getPause
        (pauseKey "workflow_x" "job1")
      = some sampleBadPause := by decide

/-- C7 amended: on a resume request the stored PauseState is read and
validated first; deletion happens only after validation passes.  When the
PauseState is missing `remainingActions` or `context`, the resume is
rejected with the corruption outcome, nothing is enqueued, and the server
state — including the PauseState itself — is left entirely unchanged. -/
theorem corrupted_pause_rejection (now : Nat) (s : ServerState)
    (workflowId jobId : String) (ps : PauseState)
    (hw : workflowId ≠ "") (hj : jobId ≠ "")
    (hp : s.store.getPause (pauseKey workflowId jobId) = some ps)
    (hbad : ps.remainingActions = none ∨ ps.context = none) :
    handleResume now workflowId jobId s = (ResumeResult.corrupted, s) := by
  have hw' : (workflowId == "") = false := beq_eq_false_iff_ne.mpr hw
  have hj' : (jobId == "") = false := beq_eq_false_iff_ne.mpr hj
  rcases hbad with hb | hb
  · simp [handleResume, hw', hj', hp, hb]
  · rcases hra : ps.remainingActions with _ | ra
    · simp [handleResume, hw', hj', hp, hra]
    · simp [handleResume, hw', hj', hp, hra, hb]

/-- Witness for the amended C7 on a concrete corrupted pause state. -/
theorem corrupted_pause_rejection_witness :
    handleResume 11 "workflow_x" "job1" sampleBadPausedState
      = (ResumeResult.corrupted, sampleBadPausedState) := by
  exact corrupted_pause_rejection 11 sampleBadPausedState "workflow_x" "job1"
    sampleBadPause (by decide) (by decide) (by decide) (Or.inr (by decide))

/-! ## Claim C3 -/

/-- Counterexample to C3 at a concrete input: deploying webhook workflow
"new" with `previousWorkflowId = "workflow_old"` on an EMPTY store (no
live config for `workflow_old` exists) still creates the tombstone,
refuting "created only when … a live config currently exists for the
previous id"; moreover the rename block's write sequence puts the
tombstone `SET` before the config `DEL`, and after applying only that
first write to a store that does hold a live `workflow_old` config, the
tombstone and the active config coexist — refuting "created only after
the previous id's config row has been removed". -/
theorem tombstone_claim_counterexample :
    emptyState.store.getConfig "workflow_old" = none ∧
    (handleTriggerWorkflow 7
        { config := some (webhookCfg "new"), context := [], isTestRun := false,
          previousWorkflowId := some "workflow_old" } emptyState).2.store.getTombstone
        "workflow_old"
      = some { status := "renamed", newWorkflowId := "workflow_new", renamedAt := 7 } ∧
    renameOps 7 "workflow_old" "workflow_new"
      = [StoreOp.setTombstone "workflow_old"
           { status := "renamed", newWorkflowId := "workflow_new", renamedAt := 7 },
         StoreOp.delConfig "workflow_old"] ∧
    (Store.applyOp
        { emptyStore with configs := [("workflow_old", webhookCfg "old")] }
        (StoreOp.setTombstone "workflow_old"
          { status := "renamed", newWorkflowId := "workflow_new", renamedAt := 7 })).getConfig
        "workflow_old" = some (webhookCfg "old") ∧
    (Store.applyOp
        { emptyStore with configs := [("workflow_old", webhookCfg "old")] }
        (StoreOp.setTombstone "workflow_old"
          { status := "renamed", newWorkflowId := "workflow_new", renamedAt := 7 })).getTombstone
        "workflow_old"
      = some { status := "renamed", newWorkflowId := "workflow_new", renamedAt := 7 } := by
  decide

/-- C3 amended: on a webhook deploy that supplies a non-empty
`previousWorkflowId` different from the new id, the tombstone for the
previous id is created unconditionally — whether or not a live config
exists for the previous id — and the previous id's config row is deleted
in the same save, the tombstone `SET` being issued BEFORE the config
`DEL` (so a transient window where both exist is possible); after the
save the previous id holds the tombstone pointing at the new id and no
config. -/
theorem tombstone_creation_behavior (now : Nat) (s : ServerState) (cfg : WorkflowConfig)
    (tr : Trigger) (prevId : String) (ctx : Ctx) (test : Bool)
    (htr : cfg.trigger = some tr) (hty : tr.type = "webhook")
    (hne : prevId ≠ "")
    (hne2 : prevId ≠ deriveId now (some "webhook") cfg.workflowName) :
    (handleTriggerWorkflow now
        { config := some cfg, context := ctx, isTestRun := test,
          previousWorkflowId := some prevId } s).2.store.getTombstone prevId
      = some { status := "renamed",
               newWorkflowId := deriveId now (some "webhook") cfg.workflowName,
               renamedAt := now } ∧
    (handleTriggerWorkflow now
        { config := some cfg, context := ctx, isTestRun := test,
          previousWorkflowId := some prevId } s).2.store.getConfig prevId = none ∧
    renameOps now prevId (deriveId now (some "webhook") cfg.workflowName)
      = [StoreOp.setTombstone prevId
           { status := "renamed",
             newWorkflowId := deriveId now (some "webhook") cfg.workflowName,
             renamedAt := now },
         StoreOp.delConfig prevId] := by
  have htt : (cfg.trigger.map fun t => t.type) = some "webhook" := by
    rw [htr]; simp [hty]
  have hne' : (prevId != "") = true := bne_iff_ne.mpr hne
  have hne2' : (prevId != deriveId now (some "webhook") cfg.workflowName) = true :=
    bne_iff_ne.mpr hne2
  refine ⟨?_, ?_, rfl⟩ <;>
  cases test <;>
    simp [handleTriggerWorkflow, htt, hne', hne2', renameOps, Store.applyOp,
      Store.setTombstone, Store.delConfig, Store.setConfig, Store.delTombstone,
      Store.getTombstone, Store.getConfig, hne2,
      kvGet_del_ne, kvGet_set_self, kvGet_set_ne, kvGet_del_self]

/-- Witness for the amended C3 on a concrete rename with no prior config. -/
theorem tombstone_creation_behavior_witness :
    (handleTriggerWorkflow 7
        { config := some (webhookCfg "new"), context := [], isTestRun := false,
          previousWorkflowId := some "workflow_old" } emptyState).2.store.getTombstone
        "workflow_old"
      = some { status := "renamed",
               newWorkflowId := deriveId 7 (some "webhook") (webhookCfg "new").workflowName,
               renamedAt := 7 } ∧
    (handleTriggerWorkflow 7
        { config := some (webhookCfg "new"), context := [], isTestRun := false,
          previousWorkflowId := some "workflow_old" } emptyState).2.store.getConfig
        "workflow_old" = none ∧
    renameOps 7 "workflow_old" (deriveId 7 (some "webhook") (webhookCfg "new").workflowName)
      = [StoreOp.setTombstone "workflow_old"
           { status := "renamed",
             newWorkflowId := deriveId 7 (some "webhook") (webhookCfg "new").workflowName,
             renamedAt := 7 },
         StoreOp.delConfig "workflow_old"] := by
  exact tombstone_creation_behavior 7 emptyState (webhookCfg "new")
    ((webhookCfg "new").trigger.getD
      { type := "webhook", scheduleType := none, cronExpression := none, intervalMinutes := none })
    "workflow_old" [] false (by decide) (by decide) (by decide) (by decide)

/-! ## Claim C6 -/

theorem deriveId_webhook (now : Nat) (nm : Option String) :
    deriveId now (some "webhook") nm = "workflow_" ++ safeName (nameOrDefault nm) := rfl

theorem deriveId_timer (now : Nat) (nm : Option String) :
    deriveId now (some "timer") nm = "cron_workflow_" ++ safeName (nameOrDefault nm) := rfl

/-- Any id of the form `workflow_<suffix>` passes the webhook namespace
check. -/
theorem jsStartsWith_workflow_append (t : String) :
    jsStartsWith ("workflow_" ++ t) "workflow_" = true := by
  have h : ("workflow_" ++ t).data = "workflow_".data ++ t.data := rfl
  simp [jsStartsWith, h, List.isPrefixOf_iff_prefix, List.prefix_append]

def sampleRenamedTombState : ServerState :=
  { store := { emptyStore with
      tombstones := [("workflow_x",
        { status := "renamed", newWorkflowId := "workflow_y", renamedAt := 3 })] },
    queue := emptyQueue }

/-- Counterexample to C6 at a concrete input: a hot reload of
`workflow_x` succeeds but does NOT delete the tombstone keyed by that id
— it is still present afterwards, contradicting "the tombstone keyed by
that id is deleted unconditionally" for the `PUT /hot-reload` path. -/
theorem hot_reload_tombstone_counterexample :
    (handleHotReload "workflow_x" (some (webhookCfg "x")) sampleRenamedTombState).1
      = HotReloadResult.ok ∧
    (handleHotReload "workflow_x" (some (webhookCfg "x")) sampleRenamedTombState).2.store.getTombstone
        "workflow_x"
      = some { status := "renamed", newWorkflowId := "workflow_y", renamedAt := 3 } := by
  decide

/-- C6 amended: a new webhook deploy via `POST /trigger-workflow` deletes
the tombstone keyed by the activated id unconditionally (even when none
exists); `PUT /hot-reload` overwrites the active config but leaves any
tombstone in place; in both cases a subsequent webhook call under the
activated id is accepted rather than returning the gone outcome, because
an active config always takes precedence over a tombstone. -/
theorem activation_tombstone_clear (now : Nat) (s : ServerState) (cfg cfg2 : WorkflowConfig)
    (tr : Trigger) (ctx : Ctx) (prev : Option String) (wid : String)
    (htr : cfg.trigger = some tr) (hty : tr.type = "webhook")
    (hwid : wid ≠ "") (hwn : jsStartsWith wid "workflow_" = true) :
    (handleTriggerWorkflow now
        { config := some cfg, context := ctx, isTestRun := false,
          previousWorkflowId := prev } s).2.store.getTombstone
        (deriveId now (some "webhook") cfg.workflowName) = none ∧
    ((handleHotReload wid (some cfg2) s).2.store.getConfig wid = some cfg2 ∧
     (handleHotReload wid (some cfg2) s).2.store.getTombstone wid
       = s.store.getTombstone wid) ∧
    (handleWebhook now wid ctx (handleHotReload wid (some cfg2) s).2).1
      = WebhookResult.accepted ("webhook_exec_" ++ toString now) ∧
    (handleWebhook now (deriveId now (some "webhook") cfg.workflowName) ctx
        (handleTriggerWorkflow now
          { config := some cfg, context := ctx, isTestRun := false,
            previousWorkflowId := prev } s).2).1
      = WebhookResult.accepted ("webhook_exec_" ++ toString now) := by
  have htt : (cfg.trigger.map fun t => t.type) = some "webhook" := by
    rw [htr]; simp [hty]
  have hwid' : (wid == "") = false := beq_eq_false_iff_ne.mpr hwid
  have hwn2 : jsStartsWith (deriveId now (some "webhook") cfg.workflowName) "workflow_" = true := by
    rw [deriveId_webhook]; exact jsStartsWith_workflow_append _
  refine ⟨?_, ⟨?_, ?_⟩, ?_, ?_⟩
  · cases prev with
    | none =>
      simp [handleTriggerWorkflow, htt, Store.setConfig, Store.delTombstone,
        Store.getTombstone, kvGet_del_self]
    | some p =>
      by_cases hg : (p != "" && p != deriveId now (some "webhook") cfg.workflowName) = true
      · simp [handleTriggerWorkflow, htt, hg, renameOps, Store.applyOp, Store.setTombstone,
          Store.delConfig, Store.setConfig, Store.delTombstone, Store.getTombstone,
          kvGet_del_self]
      · have hg' : (p != "" && p != deriveId now (some "webhook") cfg.workflowName) = false := by
          simpa using hg
        simp [handleTriggerWorkflow, htt, hg', Store.setConfig, Store.delTombstone,
          Store.getTombstone, kvGet_del_self]
  · simp [handleHotReload, hwid', Store.setConfig, Store.getConfig, kvGet_set_self]
  · simp [handleHotReload, hwid', Store.setConfig, Store.getTombstone]
  · simp [handleWebhook, hwn, handleHotReload, hwid', Store.setConfig, Store.getConfig,
      kvGet_set_self]
  · cases prev with
    | none =>
      simp [handleWebhook, hwn2, handleTriggerWorkflow, htt, Store.setConfig,
        Store.delTombstone, Store.getConfig, kvGet_set_self]
    | some p =>
      by_cases hg : (p != "" && p != deriveId now (some "webhook") cfg.workflowName) = true
      · simp [handleWebhook, hwn2, handleTriggerWorkflow, htt, hg, renameOps, Store.applyOp,
          Store.setTombstone, Store.delConfig, Store.setConfig, Store.delTombstone,
          Store.getConfig, kvGet_set_self]
      · have hg' : (p != "" && p != deriveId now (some "webhook") cfg.workflowName) = false := by
          simpa using hg
        simp [handleWebhook, hwn2, handleTriggerWorkflow, htt, hg', Store.setConfig,
          Store.delTombstone, Store.getConfig, kvGet_set_self]

/-- Witness for the amended C6 on a concrete tombstoned id. -/
theorem activation_tombstone_clear_witness :
    (handleTriggerWorkflow 5
        { config := some (webhookCfg "x"), context := [], isTestRun := false,
          previousWorkflowId := none } sampleRenamedTombState).2.store.getTombstone
        (deriveId 5 (some "webhook") (webhookCfg "x").workflowName) = none ∧
    ((handleHotReload "workflow_x" (some (webhookCfg "x")) sampleRenamedTombState).2.store.getConfig
        "workflow_x" = some (webhookCfg "x") ∧
     (handleHotReload "workflow_x" (some (webhookCfg "x")) sampleRenamedTombState).2.store.getTombstone
        "workflow_x" = sampleRenamedTombState.store.getTombstone "workflow_x") ∧
    (handleWebhook 5 "workflow_x" []
        (handleHotReload "workflow_x" (some (webhookCfg "x")) sampleRenamedTombState).2).1
      = WebhookResult.accepted ("webhook_exec_" ++ toString 5) ∧
    (handleWebhook 5 (deriveId 5 (some "webhook") (webhookCfg "x").workflowName) []
        (handleTriggerWorkflow 5
          { config := some (webhookCfg "x"), context := [], isTestRun := false,
            previousWorkflowId := none } sampleRenamedTombState).2).1
      = WebhookResult.accepted ("webhook_exec_" ++ toString 5) := by
  exact activation_tombstone_clear 5 sampleRenamedTombState (webhookCfg "x") (webhookCfg "x")
    ((webhookCfg "x").trigger.getD
      { type := "webhook", scheduleType := none, cronExpression := none, intervalMinutes := none })
    [] none "workflow_x" (by decide) (by decide) (by decide) (by decide)

/-! ## Claim C5 -/

/-- Helper: a webhook deploy (no test run) always answers with the derived
`workflow_`-prefixed id, whatever the store, queue, time and previous id. -/
theorem webhook_deploy_result (now : Nat) (s : ServerState) (cfg : WorkflowConfig)
    (tr : Trigger) (ctx : Ctx) (prev : Option String)
    (htr : cfg.trigger = some tr) (hty : tr.type = "webhook") :
    (handleTriggerWorkflow now
        { config := some cfg, context := ctx, isTestRun := false,
          previousWorkflowId := prev } s).1
      = TriggerResult.webhookDeployed (deriveId now (some "webhook") cfg.workflowName) := by
  have htt : (cfg.trigger.map fun t => t.type) = some "webhook" := by
    rw [htr]; simp [hty]
  cases prev with
  | none => simp [handleTriggerWorkflow, htt]
  | some p =>
    by_cases hg : (p != "" && p != deriveId now (some "webhook") cfg.workflowName) = true
    · simp [handleTriggerWorkflow, htt, hg]
    · have hg' : (p != "" && p != deriveId now (some "webhook") cfg.workflowName) = false := by
        simpa using hg
      simp [handleTriggerWorkflow, htt, hg']

/-- Counterexample to C5 at a concrete input: for the webhook workflow
named "My Flow" the code derives `workflow_my_flow` (non-alphanumerics
REPLACED by underscores), which differs from the id the claim's
strip-based sanitization predicts (`workflow_myflow`). -/
theorem derive_id_strip_counterexample :
    (handleTriggerWorkflow 7
        { config := some (webhookCfg "My Flow"), context := [], isTestRun := false,
          previousWorkflowId := none } emptyState).1
      = TriggerResult.webhookDeployed "workflow_my_flow" ∧
    specSanitize "My Flow" = "myflow" ∧
    "workflow_my_flow" ≠ "workflow_" ++ specSanitize "My Flow" := by decide

/-- C5 amended: for webhook- and timer-triggered deploys the derived
workflowId is a pure, deterministic function of `(triggerType, name)`:
the prefix `workflow_` (webhook) or `cron_workflow_` (timer) followed by
the sanitized name, where sanitization REPLACES each non-alphanumeric
character with an underscore and lower-cases; re-deriving from the same
inputs — at any time, against any store — yields the same id, and the
deploy route answers with exactly that id. -/
theorem derive_id_deterministic (now now2 : Nat) (s s2 : ServerState)
    (cfg : WorkflowConfig) (tr : Trigger) (nm : Option String)
    (ctx ctx2 : Ctx) (prev prev2 : Option String)
    (htr : cfg.trigger = some tr) (hty : tr.type = "webhook")
    (hnm : cfg.workflowName = nm) :
    deriveId now (some "webhook") nm = "workflow_" ++ safeName (nameOrDefault nm) ∧
    deriveId now (some "timer") nm = "cron_workflow_" ++ safeName (nameOrDefault nm) ∧
    deriveId now (some "webhook") nm = deriveId now2 (some "webhook") nm ∧
    deriveId now (some "timer") nm = deriveId now2 (some "timer") nm ∧
    (handleTriggerWorkflow now
        { config := some cfg, context := ctx, isTestRun := false,
          previousWorkflowId := prev } s).1
      = TriggerResult.webhookDeployed ("workflow_" ++ safeName (nameOrDefault nm)) ∧
    (handleTriggerWorkflow now
        { config := some cfg, context := ctx, isTestRun := false,
          previousWorkflowId := prev } s).1
      = (handleTriggerWorkflow now2
          { config := some cfg, context := ctx2, isTestRun := false,
            previousWorkflowId := prev2 } s2).1 := by
  refine ⟨deriveId_webhook now nm, deriveId_timer now nm, rfl, rfl, ?_, ?_⟩
  · rw [webhook_deploy_result now s cfg tr ctx prev htr hty, deriveId_webhook, hnm]
  · rw [webhook_deploy_result now s cfg tr ctx prev htr hty,
        webhook_deploy_result now2 s2 cfg tr ctx2 prev2 htr hty]
    rw [deriveId_webhook, deriveId_webhook]

/-- Witness for the amended C5 on the concrete name "My Flow" at two
different times and server states. -/
theorem derive_id_deterministic_witness :
    deriveId 7 (some "webhook") (some "My Flow")
      = "workflow_" ++ safeName (nameOrDefault (some "My Flow")) ∧
    deriveId 7 (some "timer") (some "My Flow")
      = "cron_workflow_" ++ safeName (nameOrDefault (some "My Flow")) ∧
    deriveId 7 (some "webhook") (some "My Flow") = deriveId 99 (some "webhook") (some "My Flow") ∧
    deriveId 7 (some "timer") (some "My Flow") = deriveId 99 (some "timer") (some "My Flow") ∧
    (handleTriggerWorkflow 7
        { config := some (webhookCfg "My Flow"), context := [], isTestRun := false,
          previousWorkflowId := none } emptyState).1
      = TriggerResult.webhookDeployed ("workflow_" ++ safeName (nameOrDefault (some "My Flow"))) ∧
    (handleTriggerWorkflow 7
        { config := some (webhookCfg "My Flow"), context := [], isTestRun := false,
          previousWorkflowId := none } emptyState).1
      = (handleTriggerWorkflow 99
          { config := some (webhookCfg "My Flow"), context := [("k", "v")], isTestRun := false,
            previousWorkflowId := some "workflow_old" } sampleCfgState).1 := by
  exact derive_id_deterministic 7 99 emptyState sampleCfgState (webhookCfg "My Flow")
    ((webhookCfg "My Flow").trigger.getD
      { type := "webhook", scheduleType := none, cronExpression := none, intervalMinutes := none })
    (some "My Flow") [] [("k", "v")] none (some "workflow_old")
    (by decide) (by decide) (by decide)

/-! ## Claim C8 -/

/-- C8: a timer deploy whose `scheduleType` is not recognized, or whose
required field (`cronExpression` for cron, `intervalMinutes` for
interval) is absent, fails the whole compile with the invalid-timer
configuration outcome and leaves the queue untouched: no recurring entry
is inserted or removed and no execution request is enqueued. -/
theorem invalid_timer_no_queue_mutation (now : Nat) (s : ServerState) (cfg : WorkflowConfig)
    (tr : Trigger) (ctx : Ctx) (prev : Option String)
    (htr : cfg.trigger = some tr) (hty : tr.type = "timer")
    (hbad : (∀ x, tr.scheduleType = some x → x ≠ "cron" ∧ x ≠ "interval")
            ∨ (tr.scheduleType = some "cron" ∧ tr.cronExpression = none)
            ∨ (tr.scheduleType = some "interval" ∧ tr.intervalMinutes = none)) :
    (handleTriggerWorkflow now
        { config := some cfg, context := ctx, isTestRun := false,
          previousWorkflowId := prev } s).1 = TriggerResult.invalidTimer ∧
    (handleTriggerWorkflow now
        { config := some cfg, context := ctx, isTestRun := false,
          previousWorkflowId := prev } s).2.queue = s.queue := by
  have hcr : compileRepeat tr = none := by
    rcases hbad with h | ⟨h1, h2⟩ | ⟨h1, h2⟩
    · rcases hst : tr.scheduleType with _ | x
      · simp [compileRepeat, hst]
      · have hc' : (x == "cron") = false := beq_eq_false_iff_ne.mpr (h x hst).1
        have hi' : (x == "interval") = false := beq_eq_false_iff_ne.mpr (h x hst).2
        simp [compileRepeat, hst, hc', hi']
    · simp [compileRepeat, h1, h2, truthyStr]
    · simp [compileRepeat, h1, h2, truthyNat]
  have htt : (cfg.trigger.map fun t => t.type) = some "timer" := by
    rw [htr]; simp [hty]
  constructor <;> simp [handleTriggerWorkflow, htt, htr, hty, hcr]

/-- Witness for C8: a timer deploy with `scheduleType = "interval"` but no
`intervalMinutes` is rejected and the queue is unchanged. -/
theorem invalid_timer_no_queue_mutation_witness :
    (handleTriggerWorkflow 9
        { config := some (timerCfg "x" (some "interval") none none), context := [],
          isTestRun := false, previousWorkflowId := none } emptyState).1
      = TriggerResult.invalidTimer ∧
    (handleTriggerWorkflow 9
        { config := some (timerCfg "x" (some "interval") none none), context := [],
          isTestRun := false, previousWorkflowId := none } emptyState).2.queue
      = emptyState.queue := by
  exact invalid_timer_no_queue_mutation 9 emptyState (timerCfg "x" (some "interval") none none)
    ((timerCfg "x" (some "interval") none none).trigger.getD
      { type := "timer", scheduleType := none, cronExpression := none, intervalMinutes := none })
    [] none (by decide) (by decide)
    (Or.inr (Or.inr ⟨by decide, by decide⟩))

/-! ## Claim C10 -/

/-- C10: on a timer deploy with invalid or missing schedule fields the
request fails with the invalid-timer configuration outcome and the queue
is untouched, yet the durable config store has already been mutated: the
configuration under `workflow_config:{workflowId}` has been overwritten
with the new config before the validation error is returned. -/
theorem invalid_timer_config_overwritten (now : Nat) (s : ServerState) (cfg : WorkflowConfig)
    (tr : Trigger) (ctx : Ctx) (prev : Option String)
    (htr : cfg.trigger = some tr) (hty : tr.type = "timer")
    (hbad : compileRepeat tr = none) :
    (handleTriggerWorkflow now
        { config := some cfg, context := ctx, isTestRun := false,
          previousWorkflowId := prev } s).1 = TriggerResult.invalidTimer ∧
    (handleTriggerWorkflow now
        { config := some cfg, context := ctx, isTestRun := false,
          previousWorkflowId := prev } s).2.store.getConfig
        (deriveId now (some "timer") cfg.workflowName) = some cfg ∧
    (handleTriggerWorkflow now
        { config := some cfg, context := ctx, isTestRun := false,
          previousWorkflowId := prev } s).2.queue = s.queue := by
  have htt : (cfg.trigger.map fun t => t.type) = some "timer" := by
    rw [htr]; simp [hty]
  refine ⟨?_, ?_, ?_⟩ <;>
    simp [handleTriggerWorkflow, htt, htr, hty, hbad, Store.setConfig, Store.getConfig,
      kvGet_set_self]

/-- Witness for C10: the rejected interval deploy has nonetheless
overwritten `workflow_config:cron_workflow_x`. -/
theorem invalid_timer_config_overwritten_witness :
    (handleTriggerWorkflow 9
        { config := some (timerCfg "x" (some "interval") none (some 0)), context := [],
          isTestRun := false, previousWorkflowId := none } emptyState).1
      = TriggerResult.invalidTimer ∧
    (handleTriggerWorkflow 9
        { config := some (timerCfg "x" (some "interval") none (some 0)), context := [],
          isTestRun := false, previousWorkflowId := none } emptyState).2.store.getConfig
        (deriveId 9 (some "timer") (timerCfg "x" (some "interval") none (some 0)).workflowName)
      = some (timerCfg "x" (some "interval") none (some 0)) ∧
    (handleTriggerWorkflow 9
        { config := some (timerCfg "x" (some "interval") none (some 0)), context := [],
          isTestRun := false, previousWorkflowId := none } emptyState).2.queue
      = emptyState.queue := by
  exact invalid_timer_config_overwritten 9 emptyState
    (timerCfg "x" (some "interval") none (some 0))
    ((timerCfg "x" (some "interval") none (some 0)).trigger.getD
      { type := "timer", scheduleType := none, cronExpression := none, intervalMinutes := none })
    [] none (by decide) (by decide) (by decide)

/-! ## Claim C4 -/

/-- List-level reconciliation fact, `find?` miss case: no existing entry
carries id `wid`, so after inserting the fresh entry exactly it carries
that id. -/
theorem reconcile_filter_missing (l : List RepeatableEntry) (wid : String) (opts : RepeatOpts)
    (hfind : l.find? (fun x => x.id == wid) = none) :
    (l.filter (fun a => a != RepeatableEntry.mk wid opts)
      ++ [RepeatableEntry.mk wid opts]).filter (fun x => x.id == wid)
    = [RepeatableEntry.mk wid opts] := by
  have hall := List.find?_eq_none.mp hfind
  rw [List.filter_append]
  have hnil : (l.filter (fun a => a != RepeatableEntry.mk wid opts)).filter
      (fun x => x.id == wid) = [] := by
    rw [List.filter_eq_nil_iff]
    intro a ha hid
    exact hall a (List.mem_filter.mp ha).1 hid
  rw [hnil]
  simp

/-- List-level reconciliation fact, `find?` hit case: if at most one
existing entry carries id `wid` and `e` is the one `find?` located, then
removing `e` while inserting the fresh entry leaves exactly the fresh
entry under that id. -/
theorem reconcile_filter_found (l : List RepeatableEntry) (wid : String) (opts : RepeatOpts)
    (e : RepeatableEntry)
    (hfind : l.find? (fun x => x.id == wid) = some e)
    (hcount : (l.filter (fun x => x.id == wid)).length ≤ 1) :
    (l.filter (fun a => a != RepeatableEntry.mk wid opts && a != e)
      ++ [RepeatableEntry.mk wid opts]).filter (fun x => x.id == wid)
    = [RepeatableEntry.mk wid opts] := by
  have he_id : (e.id == wid) = true := by simpa using List.find?_some hfind
  have he_mem : e ∈ l := List.mem_of_find?_eq_some hfind
  have he_A : e ∈ l.filter (fun x => x.id == wid) := List.mem_filter.mpr ⟨he_mem, he_id⟩
  have hlen1 : (l.filter (fun x => x.id == wid)).length = 1 := by
    have := List.length_pos_of_mem he_A
    omega
  obtain ⟨a, ha⟩ := List.length_eq_one.mp hlen1
  rw [List.filter_append]
  have hnil : (l.filter (fun a => a != RepeatableEntry.mk wid opts && a != e)).filter
      (fun x => x.id == wid) = [] := by
    rw [List.filter_eq_nil_iff]
    intro x hx hid
    have hxl : x ∈ l := (List.mem_filter.mp hx).1
    have hxp : (x != RepeatableEntry.mk wid opts && x != e) = true := (List.mem_filter.mp hx).2
    have hxne : x ≠ e := by
      have := (Bool.and_eq_true_iff.mp hxp).2
      simpa using this
    have hxA : x ∈ l.filter (fun x => x.id == wid) := List.mem_filter.mpr ⟨hxl, hid⟩
    have hxa : x = a := by
      have : x ∈ [a] := ha ▸ hxA
      simpa using this
    have hea : e = a := by
      have : e ∈ [a] := ha ▸ he_A
      simpa using this
    exact hxne (hxa.trans hea.symm)
  rw [hnil]
  simp

def sampleTwoEntryQueue : Queue :=
  { jobs := [],
    repeatables := [RepeatableEntry.mk "cron_workflow_x" (RepeatOpts.every 60000),
                    RepeatableEntry.mk "cron_workflow_x" (RepeatOpts.every 120000)] }

/-- Counterexample to C4 at a concrete input: with TWO pre-existing
recurring entries sharing logical id `cron_workflow_x`, a successful
interval redeploy removes only the first one `find` locates, leaving TWO
entries with that id — not exactly one, refuting the claim's "for any
number of prior recurring entries sharing that id". -/
theorem timer_unique_schedule_counterexample :
    (handleTriggerWorkflow 9
        { config := some (timerCfg "x" (some "interval") none (some 5)), context := [],
          isTestRun := false, previousWorkflowId := none }
        { store := emptyStore, queue := sampleTwoEntryQueue }).1
      = TriggerResult.scheduled "cron_workflow_x" ∧
    ((handleTriggerWorkflow 9
        { config := some (timerCfg "x" (some "interval") none (some 5)), context := [],
          isTestRun := false, previousWorkflowId := none }
        { store := emptyStore, queue := sampleTwoEntryQueue }).2.queue.repeatables.filter
        (fun e => e.id == "cron_workflow_x")).length = 2 := by decide

/-- C4 amended: starting from any queue state in which AT MOST ONE
recurring entry carries the target workflowId (the invariant the route
itself maintains, since every deploy removes the first matching entry
before inserting the fresh one), a successful timer deploy leaves EXACTLY
ONE recurring entry with that logical id — the freshly compiled one — and
for `scheduleType = "interval"` its period is `intervalMinutes * 60 * 1000`
milliseconds (e.g. 5 minutes gives a 300000 ms period under
`cron_workflow_<name>`).  With two or more pre-existing entries sharing
the id, only the first is removed. -/
theorem timer_schedule_reconciliation (now : Nat) (s : ServerState) (cfg : WorkflowConfig)
    (tr : Trigger) (ctx : Ctx) (prev : Option String) (opts : RepeatOpts)
    (htr : cfg.trigger = some tr) (hty : tr.type = "timer")
    (hcr : compileRepeat tr = some opts)
    (hcount : (s.queue.repeatables.filter
        (fun e => e.id == deriveId now (some "timer") cfg.workflowName)).length ≤ 1) :
    (handleTriggerWorkflow now
        { config := some cfg, context := ctx, isTestRun := false,
          previousWorkflowId := prev } s).1
      = TriggerResult.scheduled (deriveId now (some "timer") cfg.workflowName) ∧
    ((handleTriggerWorkflow now
        { config := some cfg, context := ctx, isTestRun := false,
          previousWorkflowId := prev } s).2.queue.repeatables.filter
        (fun e => e.id == deriveId now (some "timer") cfg.workflowName))
      = [RepeatableEntry.mk (deriveId now (some "timer") cfg.workflowName) opts] ∧
    (∀ n, tr.scheduleType = some "interval" → tr.intervalMinutes = some n →
      opts = RepeatOpts.every (n * 60 * 1000)) := by
  have htt : (cfg.trigger.map fun t => t.type) = some "timer" := by
    rw [htr]; simp [hty]
  refine ⟨?_, ?_, ?_⟩
  · simp [handleTriggerWorkflow, htt, htr, hty, hcr]
  · rcases hfind : s.queue.repeatables.find?
        (fun e => e.id == deriveId now (some "timer") cfg.workflowName) with _ | e
    · have hred := reconcile_filter_missing s.queue.repeatables
        (deriveId now (some "timer") cfg.workflowName) opts hfind
      simpa [handleTriggerWorkflow, htt, htr, hty, hcr, hfind,
        Queue.removeRepeatableByKey, Queue.addRepeatable] using hred
    · have hred := reconcile_filter_found s.queue.repeatables
        (deriveId now (some "timer") cfg.workflowName) opts e hfind hcount
      simpa [handleTriggerWorkflow, htt, htr, hty, hcr, hfind,
        Queue.removeRepeatableByKey, Queue.addRepeatable] using hred
  · intro n hst hint
    by_cases hn0 : n = 0
    · have hnone : compileRepeat tr = none := by
        simp [compileRepeat, hst, hint, truthyNat, hn0]
      rw [hcr] at hnone
      exact absurd hnone (by simp)
    · have hnb : (n != 0) = true := bne_iff_ne.mpr hn0
      have hsome : compileRepeat tr = some (RepeatOpts.every (n * 60 * 1000)) := by
        simp [compileRepeat, hst, hint, truthyNat, hnb]
      rw [hcr] at hsome
      exact Option.some.inj hsome

/-- Witness for the amended C4: a redeploy over one stale entry with a
different schedule leaves exactly the fresh 300000 ms entry. -/
theorem timer_schedule_reconciliation_witness :
    (handleTriggerWorkflow 9
        { config := some (timerCfg "x" (some "interval") none (some 5)), context := [],
          isTestRun := false, previousWorkflowId := none }
        { store := emptyStore,
          queue := { jobs := [],
                     repeatables := [RepeatableEntry.mk "cron_workflow_x"
                       (RepeatOpts.every 60000)] } }).1
      = TriggerResult.scheduled
          (deriveId 9 (some "timer") (timerCfg "x" (some "interval") none (some 5)).workflowName) ∧
    ((handleTriggerWorkflow 9
        { config := some (timerCfg "x" (some "interval") none (some 5)), context := [],
          isTestRun := false, previousWorkflowId := none }
        { store := emptyStore,
          queue := { jobs := [],
                     repeatables := [RepeatableEntry.mk "cron_workflow_x"
                       (RepeatOpts.every 60000)] } }).2.queue.repeatables.filter
        (fun e => e.id
          == deriveId 9 (some "timer") (timerCfg "x" (some "interval") none (some 5)).workflowName))
      = [RepeatableEntry.mk
           (deriveId 9 (some "timer") (timerCfg "x" (some "interval") none (some 5)).workflowName)
           (RepeatOpts.every 300000)] ∧
    (∀ n, ((timerCfg "x" (some "interval") none (some 5)).trigger.getD
        { type := "timer", scheduleType := none, cronExpression := none,
          intervalMinutes := none }).scheduleType = some "interval" →
      ((timerCfg "x" (some "interval") none (some 5)).trigger.getD
        { type := "timer", scheduleType := none, cronExpression := none,
          intervalMinutes := none }).intervalMinutes = some n →
      RepeatOpts.every 300000 = RepeatOpts.every (n * 60 * 1000)) := by
  exact timer_schedule_reconciliation 9
    { store := emptyStore,
      queue := { jobs := [],
                 repeatables := [RepeatableEntry.mk "cron_workflow_x" (RepeatOpts.every 60000)] } }
    (timerCfg "x" (some "interval") none (some 5))
    ((timerCfg "x" (some "interval") none (some 5)).trigger.getD
      { type := "timer", scheduleType := none, cronExpression := none, intervalMinutes := none })
    [] none (RepeatOpts.every 300000) (by decide) (by decide) (by decide) (by decide)

/-! ## Claim C9 -/

theorem nextVersion_ne_zero (p : Option StateRecord) : nextVersion p ≠ 0 := by
  cases p <;> simp [nextVersion]

theorem nextCreatedAt_ne_zero (now : Nat) (p : Option StateRecord) (hnow : now ≠ 0) :
    nextCreatedAt now p ≠ 0 := by
  cases p with
  | none => simpa [nextCreatedAt] using hnow
  | some ex =>
    by_cases h : ex.createdAt = 0
    · simpa [nextCreatedAt, h] using hnow
    · have h' : (ex.createdAt == 0) = false := beq_eq_false_iff_ne.mpr h
      simpa [nextCreatedAt, h'] using h

/-- C9: saving a workflow state and loading it back by the same name
returns identical `nodes`, `edges` and `globalSettings`; re-saving under
the same name yields a record whose `version` is exactly one greater than
the stored one and whose `createdAt` equals the original record's
`createdAt` (timestamps are positive). -/
theorem workflow_state_roundtrip_version (now now2 : Nat) (st : Store) (nm : String)
    (ns es : List String) (gs : List (String × String)) (wfid : Option String)
    (ns2 es2 : List String) (gs2 : List (String × String)) (wfid2 : Option String)
    (hnm : nm ≠ "") (hnow : now ≠ 0) :
    ∃ r : StateRecord,
      (handleSaveState now (some nm) (some ns) (some es) gs wfid st).1
        = SaveResult.saved r ∧
      handleLoadState nm (handleSaveState now (some nm) (some ns) (some es) gs wfid st).2
        = LoadResult.found r ∧
      r.nodes = ns ∧ r.edges = es ∧ r.globalSettings = gs ∧
      ∃ r2 : StateRecord,
        (handleSaveState now2 (some nm) (some ns2) (some es2) gs2 wfid2
            (handleSaveState now (some nm) (some ns) (some es) gs wfid st).2).1
          = SaveResult.saved r2 ∧
        r2.version = r.version + 1 ∧ r2.createdAt = r.createdAt := by
  have hnm' : (nm == "") = false := beq_eq_false_iff_ne.mpr hnm
  set r := savePayload now nm ns es gs wfid (st.getState (safeName nm)) with hr
  refine ⟨r, ?_, ?_, rfl, rfl, rfl,
          savePayload now2 nm ns2 es2 gs2 wfid2 (some r), ?_, ?_, ?_⟩
  · simp [handleSaveState, hnm', hr]
  · simp [handleSaveState, handleLoadState, hnm', hr, Store.setState, Store.getState,
      kvGet_set_self]
  · simp [handleSaveState, hnm', hr, Store.setState, Store.getState, kvGet_set_self]
  · have hf : (r.version == 0) = false :=
      beq_eq_false_iff_ne.mpr (nextVersion_ne_zero (st.getState (safeName nm)))
    show (if r.version == 0 then 1 else r.version) + 1 = r.version + 1
    simp [hf]
  · have hc : (r.createdAt == 0) = false :=
      beq_eq_false_iff_ne.mpr (nextCreatedAt_ne_zero now (st.getState (safeName nm)) hnow)
    show (if r.createdAt == 0 then now2 else r.createdAt) = r.createdAt
    simp [hc]

/-- Witness for C9: a concrete save, load and re-save of "My Flow". -/
theorem workflow_state_roundtrip_version_witness :
    ∃ r : StateRecord,
      (handleSaveState 10 (some "My Flow") (some ["n1"]) (some ["e1"]) [("k", "v")]
          none emptyStore).1 = SaveResult.saved r ∧
      handleLoadState "My Flow"
          (handleSaveState 10 (some "My Flow") (some ["n1"]) (some ["e1"]) [("k", "v")]
            none emptyStore).2
        = LoadResult.found r ∧
      r.nodes = ["n1"] ∧ r.edges = ["e1"] ∧ r.globalSettings = [("k", "v")] ∧
      ∃ r2 : StateRecord,
        (handleSaveState 20 (some "My Flow") (some ["n2"]) (some ["e2"]) [] none
            (handleSaveState 10 (some "My Flow") (some ["n1"]) (some ["e1"]) [("k", "v")]
              none emptyStore).2).1
          = SaveResult.saved r2 ∧
        r2.version = r.version + 1 ∧ r2.createdAt = r.createdAt := by
  exact workflow_state_roundtrip_version 10 20 emptyStore "My Flow" ["n1"] ["e1"]
    [("k", "v")] none ["n2"] ["e2"] [] none (by decide) (by decide)

end NexusFlow
